import Mathlib

/-
Verification of the fitapi request-authorization core: the JWT middleware
(internal/middleware/auth.go), the equipment service (internal/services/equipment.go),
the equipment repository (internal/repositories/equipment.go) and the HTTP handler
(internal/handlers/equipment.go), shallowly embedded as pure Lean functions.
-/

/-- A stored equipment entity, mirroring models.Equipment. Timestamps are
modelled as Nat ticks. -/
structure Equipment where
  id : String
  name : String
  description : String
  userID : String
  createdAt : Nat
  updatedAt : Nat
deriving DecidableEq, Repr

/-- Request body for POST, mirroring models.CreateEquipmentRequest. -/
structure CreateEquipmentRequest where
  name : String
  description : String
deriving DecidableEq, Repr

/-- Request body for PUT, mirroring models.UpdateEquipmentRequest. -/
structure UpdateEquipmentRequest where
  name : String
  description : String
deriving DecidableEq, Repr

/-- Go error values reachable in this core: the pgx no-rows sentinel, the two
service sentinels from errors.New, arbitrary lower-level database errors, and
wrapping as produced by fmt.Errorf with the w verb. -/
inductive GoError where
  | pgxNoRows : GoError
  | errEquipmentNotFound : GoError
  | errUnauthorized : GoError
  | dbError : String → GoError
  | wrapped : String → GoError → GoError
deriving DecidableEq, Repr

/-- The Error() string of a Go error value. -/
def GoError.message : GoError → String
  | .pgxNoRows => "no rows in result set"
  | .errEquipmentNotFound => "equipment not found"
  | .errUnauthorized => "unauthorized to perform this action"
  | .dbError m => m
  | .wrapped p inner => p ++ ": " ++ GoError.message inner

/-- errors.Is for the error values above: a wrapped error matches its target
through the unwrap chain; the sentinel targets used by the handler are never
themselves wrapped values. -/
def errorsIs : GoError → GoError → Bool
  | .wrapped _ inner, target => errorsIs inner target
  | e, target => decide (e = target)

/-- A Go slice value, keeping the distinction between the nil slice and a
non-nil empty slice: var x T declares a nil slice; append always yields a
non-nil slice. encoding/json marshals the nil slice as null. -/
structure GoSlice (α : Type) where
  isNil : Bool
  elems : List α
deriving DecidableEq, Repr

/-- The zero value of a slice type (nil). -/
def GoSlice.nilSlice {α : Type} : GoSlice α := ⟨true, []⟩

/-- A slice literal with no elements (non-nil, marshals as an empty array). -/
def GoSlice.emptySlice {α : Type} : GoSlice α := ⟨false, []⟩

/-- Go append of one element: the result is always non-nil. -/
def GoSlice.push {α : Type} (s : GoSlice α) (x : α) : GoSlice α :=
  ⟨false, s.elems ++ [x]⟩

/-- The repository abstraction the service is written against
(repositories.EquipmentRepository). Go mutates entities through pointers and a
database handle; here each operation threads an explicit state and returns the
possibly mutated entity. -/
structure EquipmentRepository (σ : Type) where
  create : σ → Equipment → (Except GoError Equipment) × σ
  findByID : σ → String → (Except GoError Equipment) × σ
  findAll : σ → String → (Except GoError (GoSlice Equipment)) × σ
  update : σ → Equipment → (Except GoError Equipment) × σ
  delete : σ → String → (Except GoError Unit) × σ

/-- State of the Postgres store backing PostgresEquipmentRepository: the
equipment rows, a counter modelling uuid.New, and the clock behind NOW(). -/
structure DB where
  rows : List Equipment
  nextId : Nat
  now : Nat
deriving DecidableEq, Repr

/-- The row a single-row SELECT by id sees (first match). -/
def findRow (db : DB) (id : String) : Option Equipment :=
  db.rows.find? (fun r => decide (r.id = id))

/-- PostgresEquipmentRepository.Create: assigns a fresh id, inserts with
created_at and updated_at set to NOW(), and scans both timestamps back onto
the entity. The healthy-database embedding never fails; lower-level failures
are modelled through substitute repository values. -/
def pgCreate (db : DB) (equipment : Equipment) : (Except GoError Equipment) × DB :=
  let eq := { equipment with
    id := "uuid-" ++ toString db.nextId
    createdAt := db.now
    updatedAt := db.now }
  (.ok eq, { db with rows := db.rows ++ [eq], nextId := db.nextId + 1 })

/-- PostgresEquipmentRepository.FindByID: a single-row SELECT; zero rows
surface as the pgx no-rows error. No owner filter. -/
def pgFindByID (db : DB) (id : String) : (Except GoError Equipment) × DB :=
  match findRow db id with
  | some e => (.ok e, db)
  | none => (.error .pgxNoRows, db)

/-- Insertion into a list sorted by name ascending. -/
def insertByName (e : Equipment) : List Equipment → List Equipment
  | [] => [e]
  | x :: xs => if e.name ≤ x.name then e :: x :: xs else x :: insertByName e xs

/-- ORDER BY name ASC. -/
def sortByName : List Equipment → List Equipment
  | [] => []
  | x :: xs => insertByName x (sortByName xs)

/-- PostgresEquipmentRepository.FindAll: SELECT rows of one owner ordered by
name, accumulated with append into a slice that starts as the nil slice. -/
def pgFindAll (db : DB) (userID : String) : (Except GoError (GoSlice Equipment)) × DB :=
  let matching := sortByName (db.rows.filter (fun r => decide (r.userID = userID)))
  (.ok (matching.foldl GoSlice.push GoSlice.nilSlice), db)

/-- PostgresEquipmentRepository.Update: UPDATE name, description, updated_at
WHERE id, RETURNING updated_at scanned back onto the entity; zero matching
rows surface as the pgx no-rows error. id, user_id and created_at of the row
are not part of the SET clause. -/
def pgUpdate (db : DB) (equipment : Equipment) : (Except GoError Equipment) × DB :=
  if db.rows.any (fun r => decide (r.id = equipment.id)) then
    (.ok { equipment with updatedAt := db.now },
     { db with rows := db.rows.map (fun r =>
        if r.id = equipment.id then
          { r with name := equipment.name, description := equipment.description,
                   updatedAt := db.now }
        else r) })
  else (.error .pgxNoRows, db)

/-- PostgresEquipmentRepository.Delete: DELETE WHERE id via Exec, which
ignores the affected row count, hence never a no-rows error. -/
def pgDelete (db : DB) (id : String) : (Except GoError Unit) × DB :=
  (.ok (), { db with rows := db.rows.filter (fun r => decide (¬ r.id = id)) })

/-- The production repository wiring. -/
def pgRepo : EquipmentRepository DB :=
  { create := pgCreate, findByID := pgFindByID, findAll := pgFindAll,
    update := pgUpdate, delete := pgDelete }

/-- EquipmentService.CreateEquipment: builds the entity with UserID taken from
the verified caller, zero values elsewhere, and wraps any repository failure. -/
def CreateEquipment {σ : Type} (repo : EquipmentRepository σ) (s : σ)
    (userID : String) (req : CreateEquipmentRequest) : (Except GoError Equipment) × σ :=
  let equipment : Equipment :=
    { id := "", name := req.name, description := req.description,
      userID := userID, createdAt := 0, updatedAt := 0 }
  match repo.create s equipment with
  | (.error e, s') => (.error (.wrapped "failed to create equipment" e), s')
  | (.ok eq, s') => (.ok eq, s')

/-- EquipmentService.GetEquipment: the two-phase check. Phase 1 fetches by id,
translating the pgx no-rows error to the not-found sentinel; phase 2 compares
the stored owner with the caller. -/
def GetEquipment {σ : Type} (repo : EquipmentRepository σ) (s : σ)
    (id userID : String) : (Except GoError Equipment) × σ :=
  match repo.findByID s id with
  | (.error e, s') =>
    if errorsIs e .pgxNoRows then (.error .errEquipmentNotFound, s')
    else (.error (.wrapped "failed to get equipment" e), s')
  | (.ok equipment, s') =>
    if equipment.userID = userID then (.ok equipment, s')
    else (.error .errUnauthorized, s')

/-- EquipmentService.ListEquipment: owner-scoped listing, wrapping failures. -/
def ListEquipment {σ : Type} (repo : EquipmentRepository σ) (s : σ)
    (userID : String) : (Except GoError (GoSlice Equipment)) × σ :=
  match repo.findAll s userID with
  | (.error e, s') => (.error (.wrapped "failed to list equipment" e), s')
  | (.ok l, s') => (.ok l, s')

/-- The tail of EquipmentService.UpdateEquipment after the two-phase check:
overwrite the business fields on the fetched entity, call Repository.Update,
wrap any failure. Split out so the interleaving with a concurrent delete
between the two repository calls can be stated. -/
def updateAfterCheck {σ : Type} (repo : EquipmentRepository σ) (s : σ)
    (equipment : Equipment) (req : UpdateEquipmentRequest) : (Except GoError Equipment) × σ :=
  let equipment := { equipment with name := req.name, description := req.description }
  match repo.update s equipment with
  | (.error e, s') => (.error (.wrapped "failed to update equipment" e), s')
  | (.ok eqU, s') => (.ok eqU, s')

/-- EquipmentService.UpdateEquipment: two-phase check, then the update tail. -/
def UpdateEquipment {σ : Type} (repo : EquipmentRepository σ) (s : σ)
    (id userID : String) (req : UpdateEquipmentRequest) : (Except GoError Equipment) × σ :=
  match GetEquipment repo s id userID with
  | (.error e, s') => (.error e, s')
  | (.ok equipment, s') => updateAfterCheck repo s' equipment req

/-- The tail of EquipmentService.DeleteEquipment after the two-phase check. -/
def deleteAfterCheck {σ : Type} (repo : EquipmentRepository σ) (s : σ)
    (id : String) : (Except GoError Unit) × σ :=
  match repo.delete s id with
  | (.error e, s') => (.error (.wrapped "failed to delete equipment" e), s')
  | (.ok _, s') => (.ok (), s')

/-- EquipmentService.DeleteEquipment: two-phase check, then the delete tail. -/
def DeleteEquipment {σ : Type} (repo : EquipmentRepository σ) (s : σ)
    (id userID : String) : (Except GoError Unit) × σ :=
  match GetEquipment repo s id userID with
  | (.error e, s') => (.error e, s')
  | (.ok _, s') => deleteAfterCheck repo s' id

/-- Body of an HTTP response emitted by the handler layer. -/
inductive ResponseBody where
  | errorObj (msg : String)
  | errorDetailObj (msg detail : String)
  | entityBody (e : Equipment)
  | listBody (l : GoSlice Equipment)
  | noContent
deriving DecidableEq, Repr

/-- An HTTP response: status code plus body. -/
structure HttpResponse where
  status : Nat
  body : ResponseBody
deriving DecidableEq, Repr

/-- A quoted JSON string (inner escaping is irrelevant to the stated facts). -/
def jsonStr (s : String) : String := "\"" ++ s ++ "\""

/-- JSON rendering of one entity, as encoding/json produces from the struct tags. -/
def Equipment.renderJson (e : Equipment) : String :=
  "\x7b" ++ jsonStr "id" ++ ":" ++ jsonStr e.id ++ "," ++
  jsonStr "name" ++ ":" ++ jsonStr e.name ++ "," ++
  jsonStr "description" ++ ":" ++ jsonStr e.description ++ "," ++
  jsonStr "user_id" ++ ":" ++ jsonStr e.userID ++ "," ++
  jsonStr "created_at" ++ ":" ++ toString e.createdAt ++ "," ++
  jsonStr "updated_at" ++ ":" ++ toString e.updatedAt ++ "\x7d"

/-- encoding/json of a slice value: the nil slice marshals as null, any
non-nil slice as a JSON array. -/
def GoSlice.renderJson (s : GoSlice Equipment) : String :=
  if s.isNil then "null"
  else "[" ++ String.intercalate "," (s.elems.map Equipment.renderJson) ++ "]"

/-- The wire payload of a create/update request before binding: the fields the
bound struct declares plus the foreign fields a client may try to smuggle in
(encoding/json drops keys the target struct does not declare). -/
structure CreatePayload where
  name : Option String
  description : Option String
  owner_id : Option String
  id : Option String
  created_at : Option Nat
  updated_at : Option Nat
deriving DecidableEq, Repr

/-- ShouldBindJSON into models.CreateEquipmentRequest: only name and
description are read; name is required with rune length 1..100, description
at most 500. -/
def bindCreateRequest (p : CreatePayload) : Except String CreateEquipmentRequest :=
  let n := p.name.getD ""
  let d := p.description.getD ""
  if n = "" then .error "Field validation for Name failed on the required tag"
  else if n.length > 100 then .error "Field validation for Name failed on the max tag"
  else if d.length > 500 then .error "Field validation for Description failed on the max tag"
  else .ok ⟨n, d⟩

/-- ShouldBindJSON into models.UpdateEquipmentRequest (same shape and tags). -/
def bindUpdateRequest (p : CreatePayload) : Except String UpdateEquipmentRequest :=
  let n := p.name.getD ""
  let d := p.description.getD ""
  if n = "" then .error "Field validation for Name failed on the required tag"
  else if n.length > 100 then .error "Field validation for Name failed on the max tag"
  else if d.length > 500 then .error "Field validation for Description failed on the max tag"
  else .ok ⟨n, d⟩

/-- EquipmentHandler.Create: bind, then the defense-in-depth identity check,
then the service call; a service failure is answered with 500 and a body that
carries both a generic message and a detail field holding the Error() text of
the service error (the source comment marks the detail field as temporary
debugging output). -/
def handlerCreate {σ : Type} (repo : EquipmentRepository σ) (s : σ)
    (payload : CreatePayload) (userID : String) : HttpResponse × σ :=
  match bindCreateRequest payload with
  | .error msg => (⟨400, .errorObj msg⟩, s)
  | .ok req =>
    if userID = "" then (⟨401, .errorObj "user not authenticated"⟩, s)
    else
      match CreateEquipment repo s userID req with
      | (.error e, s') => (⟨500, .errorDetailObj "failed to create equipment" e.message⟩, s')
      | (.ok eq, s') => (⟨201, .entityBody eq⟩, s')

/-- Error-to-response mapping of EquipmentHandler.GetByID. -/
def getErrorResponse (e : GoError) : HttpResponse :=
  if errorsIs e .errEquipmentNotFound then ⟨404, .errorObj "equipment not found"⟩
  else if errorsIs e .errUnauthorized then
    ⟨403, .errorObj "you don\x27t have permission to access this equipment"⟩
  else ⟨500, .errorObj "failed to get equipment"⟩

/-- EquipmentHandler.GetByID. -/
def handlerGetByID {σ : Type} (repo : EquipmentRepository σ) (s : σ)
    (id userID : String) : HttpResponse × σ :=
  if userID = "" then (⟨401, .errorObj "user not authenticated"⟩, s)
  else
    match GetEquipment repo s id userID with
    | (.error e, s') => (getErrorResponse e, s')
    | (.ok eq, s') => (⟨200, .entityBody eq⟩, s')

/-- EquipmentHandler.List: 200 with the slice exactly as the repository
produced it (nil stays nil). -/
def handlerList {σ : Type} (repo : EquipmentRepository σ) (s : σ)
    (userID : String) : HttpResponse × σ :=
  if userID = "" then (⟨401, .errorObj "user not authenticated"⟩, s)
  else
    match ListEquipment repo s userID with
    | (.error _, s') => (⟨500, .errorObj "failed to list equipment"⟩, s')
    | (.ok l, s') => (⟨200, .listBody l⟩, s')

/-- Error-to-response mapping of EquipmentHandler.Update: only the two service
sentinels are recognized; anything else is answered 500. -/
def updateErrorResponse (e : GoError) : HttpResponse :=
  if errorsIs e .errEquipmentNotFound then ⟨404, .errorObj "equipment not found"⟩
  else if errorsIs e .errUnauthorized then
    ⟨403, .errorObj "you don\x27t have permission to update this equipment"⟩
  else ⟨500, .errorObj "failed to update equipment"⟩

/-- EquipmentHandler.Update: identity check, bind, service call, mapping. -/
def handlerUpdate {σ : Type} (repo : EquipmentRepository σ) (s : σ)
    (id userID : String) (payload : CreatePayload) : HttpResponse × σ :=
  if userID = "" then (⟨401, .errorObj "user not authenticated"⟩, s)
  else
    match bindUpdateRequest payload with
    | .error msg => (⟨400, .errorObj msg⟩, s)
    | .ok req =>
      match UpdateEquipment repo s id userID req with
      | (.error e, s') => (updateErrorResponse e, s')
      | (.ok eq, s') => (⟨200, .entityBody eq⟩, s')

/-- Error-to-response mapping of EquipmentHandler.Delete. -/
def deleteErrorResponse (e : GoError) : HttpResponse :=
  if errorsIs e .errEquipmentNotFound then ⟨404, .errorObj "equipment not found"⟩
  else if errorsIs e .errUnauthorized then
    ⟨403, .errorObj "you don\x27t have permission to delete this equipment"⟩
  else ⟨500, .errorObj "failed to delete equipment"⟩

/-- EquipmentHandler.Delete. -/
def handlerDelete {σ : Type} (repo : EquipmentRepository σ) (s : σ)
    (id userID : String) : HttpResponse × σ :=
  if userID = "" then (⟨401, .errorObj "user not authenticated"⟩, s)
  else
    match DeleteEquipment repo s id userID with
    | (.error e, s') => (deleteErrorResponse e, s')
    | (.ok _, s') => (⟨204, .noContent⟩, s')

/-- A JSON claim value as jwt.MapClaims holds it. -/
inductive ClaimValue where
  | str (s : String)
  | num (n : Int)
  | flag (b : Bool)
  | nullv
deriving DecidableEq, Repr

/-- The abstract content of a bearer token: signing algorithm family, the
secret it was signed with, the expiry claim, whether the claim set is the map
form, and the claim mapping itself. -/
structure Token where
  algIsHMAC : Bool
  signedWith : String
  exp : Option Nat
  claimsAreMap : Bool
  claims : List (String × ClaimValue)
deriving DecidableEq, Repr

/-- The distinct verification failures inside jwt.Parse with the HMAC keyfunc
of the middleware: keyfunc rejection of a non-HMAC algorithm, signature
mismatch, expiry. -/
inductive JwtError where
  | badAlg : JwtError
  | badSignature : JwtError
  | tokenExpired : JwtError
deriving DecidableEq, Repr

/-- jwt.Parse with the middleware keyfunc: reject non-HMAC algorithms, verify
the signature against the configured secret, enforce the expiry claim against
the current time. -/
def jwtParse (secret : String) (now : Nat) (tok : Token) : Except JwtError Token :=
  if !tok.algIsHMAC then .error .badAlg
  else if tok.signedWith ≠ secret then .error .badSignature
  else
    match tok.exp with
    | some e => if e < now then .error .tokenExpired else .ok tok
    | none => .ok tok

/-- Lookup of one key in a claim mapping. -/
def lookupClaim (cs : List (String × ClaimValue)) (k : String) : Option ClaimValue :=
  match cs.find? (fun p => decide (p.fst = k)) with
  | some p => some p.snd
  | none => none

/-- The Go type assertion to string on a claim value: comma-ok form. -/
def asString : Option ClaimValue → Option String
  | some (.str s) => some s
  | _ => none

/-- strings.TrimPrefix specialized to the constant Bearer prefix of the
middleware. -/
def stripBearer (s : String) : String :=
  match s.toList with
  | 'B' :: 'e' :: 'a' :: 'r' :: 'e' :: 'r' :: ' ' :: rest => String.mk rest
  | _ => s

/-- Outcome of the middleware: short-circuit with a status and error message,
or proceed with user_id and user_email set in the request context. -/
inductive MiddlewareOutcome where
  | abort (status : Nat) (msg : String)
  | proceed (uid email : String)
deriving DecidableEq, Repr

/-- middleware.AuthRequired: header present, Bearer prefix present, token
parses and verifies (one combined 401 for any parse failure), claims are the
map form, the sub claim passes a string type assertion; on success user_id and
the optional email (empty string when absent or not a string) are attached.
Decoding of the wire string into the abstract token is a parameter. -/
def authRequired (secret : String) (now : Nat) (decode : String → Option Token)
    (authHeader : String) : MiddlewareOutcome :=
  if authHeader = "" then .abort 401 "missing authorization header"
  else if stripBearer authHeader = authHeader then
    .abort 401 "invalid authorization header format, expected \x27Bearer <token>\x27"
  else
    match decode (stripBearer authHeader) with
    | none => .abort 401 "invalid or expired token"
    | some tok =>
      match jwtParse secret now tok with
      | .error _ => .abort 401 "invalid or expired token"
      | .ok token =>
        if !token.claimsAreMap then .abort 401 "invalid token claims"
        else
          match asString (lookupClaim token.claims "sub") with
          | none => .abort 401 "invalid user_id in token"
          | some userID =>
            .proceed userID ((asString (lookupClaim token.claims "email")).getD "")

/-- Concrete fixture: an equipment row owned by alice. -/
def aliceRow : Equipment := ⟨"eq-1", "Bench", "flat bench", "alice", 1, 1⟩

/-- Concrete fixture: a store holding exactly the alice row. -/
def dbAlice : DB := ⟨[aliceRow], 5, 10⟩

/-- Concrete fixture: a well-formed inbound payload that also smuggles
owner_id, id and timestamp fields. -/
def payloadW : CreatePayload :=
  ⟨some "Barbell", some "Olympic barbell", some "mallory", some "fake-id", some 1, some 2⟩

/-- Concrete fixture: the bound update request of payloadW. -/
def reqW : UpdateEquipmentRequest := ⟨"Barbell", "Olympic barbell"⟩

/-- The field overwrite the update pipeline performs on an entity: the two
business fields from the request plus the refreshed updated_at; id, owner and
created_at are untouched. -/
def applyUpdate (e : Equipment) (req : UpdateEquipmentRequest) (now : Nat) : Equipment :=
  { e with name := req.name, description := req.description, updatedAt := now }

/-- When no row matches an id, the existence test of the UPDATE statement is
false. -/
theorem findRow_none_any_false (db : DB) (id : String) (h : findRow db id = none) :
    db.rows.any (fun r => decide (r.id = id)) = false := by
  rw [List.any_eq_false]
  intro r hr
  have hnp := List.find?_eq_none.mp h r hr
  simpa using hnp

/-- After a DELETE by id, no row with that id remains. -/
theorem findRow_pgDelete (db : DB) (id : String) : findRow (pgDelete db id).2 id = none := by
  unfold pgDelete findRow
  rw [List.find?_eq_none]
  intro x hx
  have hq := (List.mem_filter.mp hx).2
  have hne : ¬ x.id = id := by simpa using hq
  simpa using hne

/-- When a row is found by id, the existence test of the UPDATE statement is
true. -/
theorem findRow_some_any_true (db : DB) (id : String) (e : Equipment)
    (h : findRow db id = some e) :
    db.rows.any (fun r => decide (r.id = id)) = true := by
  unfold findRow at h
  rw [List.any_eq_true]
  exact ⟨e, List.mem_of_find?_eq_some h, by simpa using List.find?_some h⟩

/-- C1: for every stored entity owned by caller A, the service operations Get,
Update and Delete invoked by any caller B distinct from A fail with the
unauthorized sentinel (never success, no entity in the result), and for a
nonempty caller identity the handlers answer HTTP 403 with a permission error
body. -/
theorem ownership_isolation (db : DB) (e : Equipment) (A B : String)
    (req : UpdateEquipmentRequest) (p : CreatePayload)
    (hfind : findRow db e.id = some e) (hA : e.userID = A) (hB : B ≠ A)
    (hbind : bindUpdateRequest p = .ok req) :
    GetEquipment pgRepo db e.id B = (.error .errUnauthorized, db) ∧
    UpdateEquipment pgRepo db e.id B req = (.error .errUnauthorized, db) ∧
    DeleteEquipment pgRepo db e.id B = (.error .errUnauthorized, db) ∧
    (B ≠ "" →
      handlerGetByID pgRepo db e.id B =
        (⟨403, .errorObj "you don\x27t have permission to access this equipment"⟩, db) ∧
      handlerUpdate pgRepo db e.id B p =
        (⟨403, .errorObj "you don\x27t have permission to update this equipment"⟩, db) ∧
      handlerDelete pgRepo db e.id B =
        (⟨403, .errorObj "you don\x27t have permission to delete this equipment"⟩, db)) := by
  have hfb : pgFindByID db e.id = (.ok e, db) := by
    unfold pgFindByID; rw [hfind]
  have hne : ¬ (e.userID = B) := by
    rw [hA]; exact fun hh => hB hh.symm
  have hget : GetEquipment pgRepo db e.id B = (.error .errUnauthorized, db) := by
    simp [GetEquipment, pgRepo, hfb, hne]
  have hmapG : getErrorResponse .errUnauthorized =
      ⟨403, .errorObj "you don\x27t have permission to access this equipment"⟩ := rfl
  have hmapU : updateErrorResponse .errUnauthorized =
      ⟨403, .errorObj "you don\x27t have permission to update this equipment"⟩ := rfl
  have hmapD : deleteErrorResponse .errUnauthorized =
      ⟨403, .errorObj "you don\x27t have permission to delete this equipment"⟩ := rfl
  refine ⟨hget, ?_, ?_, ?_⟩
  · simp [UpdateEquipment, hget]
  · simp [DeleteEquipment, hget]
  · intro hB0
    refine ⟨?_, ?_, ?_⟩
    · simp [handlerGetByID, hB0, hget, hmapG]
    · simp [handlerUpdate, hB0, hbind, UpdateEquipment, hget, hmapU]
    · simp [handlerDelete, hB0, DeleteEquipment, hget, hmapD]

/-- C1 witness: alice owns eq-1; bob gets 403 on all three operations. -/
theorem ownership_isolation_witness :
    GetEquipment pgRepo dbAlice "eq-1" "bob" = (.error .errUnauthorized, dbAlice) ∧
    UpdateEquipment pgRepo dbAlice "eq-1" "bob" reqW = (.error .errUnauthorized, dbAlice) ∧
    DeleteEquipment pgRepo dbAlice "eq-1" "bob" = (.error .errUnauthorized, dbAlice) ∧
    handlerGetByID pgRepo dbAlice "eq-1" "bob" =
      (⟨403, .errorObj "you don\x27t have permission to access this equipment"⟩, dbAlice) ∧
    handlerUpdate pgRepo dbAlice "eq-1" "bob" payloadW =
      (⟨403, .errorObj "you don\x27t have permission to update this equipment"⟩, dbAlice) ∧
    handlerDelete pgRepo dbAlice "eq-1" "bob" =
      (⟨403, .errorObj "you don\x27t have permission to delete this equipment"⟩, dbAlice) := by
  have h := ownership_isolation dbAlice aliceRow "alice" "bob" reqW payloadW rfl rfl
    (by decide) rfl
  have h4 := h.2.2.2 (by decide)
  exact ⟨h.1, h.2.1, h.2.2.1, h4.1, h4.2.1, h4.2.2⟩

/-- C2: for every id the store has no row for, the service operations Get,
Update and Delete fail with the not-found sentinel for every caller identity,
the outcome does not depend on the caller, and for a nonempty caller identity
the handlers answer HTTP 404. -/
theorem notfound_uniform (db : DB) (id : String) (u : String)
    (req : UpdateEquipmentRequest) (p : CreatePayload)
    (hfind : findRow db id = none) (hbind : bindUpdateRequest p = .ok req) :
    GetEquipment pgRepo db id u = (.error .errEquipmentNotFound, db) ∧
    UpdateEquipment pgRepo db id u req = (.error .errEquipmentNotFound, db) ∧
    DeleteEquipment pgRepo db id u = (.error .errEquipmentNotFound, db) ∧
    (∀ u2 : String, GetEquipment pgRepo db id u2 = GetEquipment pgRepo db id u) ∧
    (u ≠ "" →
      handlerGetByID pgRepo db id u = (⟨404, .errorObj "equipment not found"⟩, db) ∧
      handlerUpdate pgRepo db id u p = (⟨404, .errorObj "equipment not found"⟩, db) ∧
      handlerDelete pgRepo db id u = (⟨404, .errorObj "equipment not found"⟩, db)) := by
  have hfb : pgFindByID db id = (.error .pgxNoRows, db) := by
    unfold pgFindByID; rw [hfind]
  have hIs : errorsIs GoError.pgxNoRows GoError.pgxNoRows = true := rfl
  have hget : ∀ v : String, GetEquipment pgRepo db id v = (.error .errEquipmentNotFound, db) := by
    intro v
    simp [GetEquipment, pgRepo, hfb, hIs]
  have hmapG : getErrorResponse .errEquipmentNotFound =
      ⟨404, .errorObj "equipment not found"⟩ := rfl
  have hmapU : updateErrorResponse .errEquipmentNotFound =
      ⟨404, .errorObj "equipment not found"⟩ := rfl
  have hmapD : deleteErrorResponse .errEquipmentNotFound =
      ⟨404, .errorObj "equipment not found"⟩ := rfl
  refine ⟨hget u, ?_, ?_, fun u2 => (hget u2).trans (hget u).symm, ?_⟩
  · simp [UpdateEquipment, hget u]
  · simp [DeleteEquipment, hget u]
  · intro hu
    refine ⟨?_, ?_, ?_⟩
    · simp [handlerGetByID, hu, hget u, hmapG]
    · simp [handlerUpdate, hu, hbind, UpdateEquipment, hget u, hmapU]
    · simp [handlerDelete, hu, DeleteEquipment, hget u, hmapD]

/-- C2 witness: no row has id missing-id; alice and bob both get 404. -/
theorem notfound_uniform_witness :
    GetEquipment pgRepo dbAlice "missing-id" "alice" = (.error .errEquipmentNotFound, dbAlice) ∧
    GetEquipment pgRepo dbAlice "missing-id" "bob" =
      GetEquipment pgRepo dbAlice "missing-id" "alice" ∧
    handlerGetByID pgRepo dbAlice "missing-id" "alice" =
      (⟨404, .errorObj "equipment not found"⟩, dbAlice) ∧
    handlerUpdate pgRepo dbAlice "missing-id" "alice" payloadW =
      (⟨404, .errorObj "equipment not found"⟩, dbAlice) ∧
    handlerDelete pgRepo dbAlice "missing-id" "alice" =
      (⟨404, .errorObj "equipment not found"⟩, dbAlice) := by
  have h := notfound_uniform dbAlice "missing-id" "alice" reqW payloadW rfl rfl
  have h5 := h.2.2.2.2 (by decide)
  exact ⟨h.1, h.2.2.2.1 "bob", h5.1, h5.2.1, h5.2.2⟩

/-- C3: the Create pipeline depends only on the name and description of the
inbound payload (owner_id, id and timestamp keys are dropped by binding), the
service builds the entity with the caller as owner, and every 201 response
carries an entity whose owner, id and timestamps were assigned server-side. -/
theorem create_server_assigns_fields (db : DB) (caller : String) (p : CreatePayload)
    (o i2 : Option String) (ca ua : Option Nat) :
    handlerCreate pgRepo db p caller =
      handlerCreate pgRepo db
        { p with owner_id := o, id := i2, created_at := ca, updated_at := ua } caller ∧
    (∀ req : CreateEquipmentRequest,
      CreateEquipment pgRepo db caller req =
        (.ok ⟨"uuid-" ++ toString db.nextId, req.name, req.description, caller, db.now, db.now⟩,
         { db with
            rows := db.rows ++
              [⟨"uuid-" ++ toString db.nextId, req.name, req.description, caller, db.now, db.now⟩],
            nextId := db.nextId + 1 })) ∧
    (∀ (eq : Equipment) (db2 : DB),
      handlerCreate pgRepo db p caller = (⟨201, .entityBody eq⟩, db2) →
      eq.userID = caller ∧ eq.id = "uuid-" ++ toString db.nextId ∧
      eq.createdAt = db.now ∧ eq.updatedAt = db.now) := by
  refine ⟨rfl, fun req => rfl, ?_⟩
  intro eq db2 h
  rcases hbv : bindCreateRequest p with msg | req
  · simp [handlerCreate, hbv] at h
  · by_cases hc : caller = ""
    · simp [handlerCreate, hbv, hc] at h
    · simp [handlerCreate, hbv, hc, CreateEquipment, pgRepo, pgCreate] at h
      obtain ⟨h1, h2⟩ := h
      subst h1
      simp

/-- C3 witness: the smuggled owner_id, id and timestamps of payloadW change
nothing, and the created entity carries server-assigned fields. -/
theorem create_server_assigns_fields_witness :
    handlerCreate pgRepo dbAlice payloadW "alice" =
      handlerCreate pgRepo dbAlice
        { payloadW with owner_id := none, id := none, created_at := none, updated_at := none }
        "alice" ∧
    (⟨"uuid-5", "Barbell", "Olympic barbell", "alice", 10, 10⟩ : Equipment).userID = "alice" ∧
    (⟨"uuid-5", "Barbell", "Olympic barbell", "alice", 10, 10⟩ : Equipment).id = "uuid-5" ∧
    (⟨"uuid-5", "Barbell", "Olympic barbell", "alice", 10, 10⟩ : Equipment).createdAt = 10 ∧
    (⟨"uuid-5", "Barbell", "Olympic barbell", "alice", 10, 10⟩ : Equipment).updatedAt = 10 := by
  have h := create_server_assigns_fields dbAlice "alice" payloadW none none none none
  have h3 := h.2.2 ⟨"uuid-5", "Barbell", "Olympic barbell", "alice", 10, 10⟩
    ⟨[aliceRow, ⟨"uuid-5", "Barbell", "Olympic barbell", "alice", 10, 10⟩], 6, 10⟩ rfl
  exact ⟨h.1, h3.1, h3.2.1, h3.2.2.1, h3.2.2.2⟩

/-- A repository test double in the style of MockEquipmentRepository whose
Create fails with a raw database error, as in the unit test
TestCreateEquipment_RepositoryError; the other operations are not exercised by
the statements below. -/
def createFailRepo : EquipmentRepository Unit :=
  { create := fun s _ => (.error (.dbError "database error"), s),
    findByID := fun s _ => (.error .pgxNoRows, s),
    findAll := fun s _ => (.ok GoSlice.emptySlice, s),
    update := fun s e => (.ok e, s),
    delete := fun s _ => (.ok (), s) }

/-- C4: evaluating the Create handler at a persistence failure shows the 500
response body carrying a detail field with the Error() text of the wrapped
lower-level error verbatim, instead of only the generic message. -/
theorem create_failure_detail_surfaced :
    handlerCreate createFailRepo () payloadW "user-123" =
      (⟨500, .errorDetailObj "failed to create equipment"
          "failed to create equipment: database error"⟩, ()) ∧
    GoError.message (.wrapped "failed to create equipment" (.dbError "database error")) =
      "failed to create equipment: database error" ∧
    (⟨500, .errorDetailObj "failed to create equipment"
        "failed to create equipment: database error"⟩ : HttpResponse) ≠
      ⟨500, .errorObj "failed to create equipment"⟩ :=
  ⟨rfl, rfl, by decide⟩

/-- C7 counterexample: carol owns nothing in the store; List answers 200 with
the nil slice, whose JSON serialization is null, not an empty array. -/
theorem list_empty_null_counterexample :
    handlerList pgRepo dbAlice "carol" = (⟨200, .listBody GoSlice.nilSlice⟩, dbAlice) ∧
    GoSlice.renderJson GoSlice.nilSlice = "null" ∧
    GoSlice.renderJson GoSlice.nilSlice ≠ "[]" :=
  ⟨rfl, rfl, by decide⟩

/-- C7 amended: for every owner with zero stored entities, List succeeds (no
error), the handler answers 200, and the returned sequence is the nil slice,
which serializes as JSON null rather than an empty array. -/
theorem list_empty_ok_null (db : DB) (u : String)
    (hempty : db.rows.filter (fun r => decide (r.userID = u)) = [])
    (hu : u ≠ "") :
    ListEquipment pgRepo db u = (.ok GoSlice.nilSlice, db) ∧
    handlerList pgRepo db u = (⟨200, .listBody GoSlice.nilSlice⟩, db) ∧
    GoSlice.renderJson GoSlice.nilSlice = "null" := by
  have hfa : pgFindAll db u = (.ok GoSlice.nilSlice, db) := by
    unfold pgFindAll
    rw [hempty]
    rfl
  have hlist : ListEquipment pgRepo db u = (.ok GoSlice.nilSlice, db) := by
    simp [ListEquipment, pgRepo, hfa]
  exact ⟨hlist, by simp [handlerList, hu, hlist], rfl⟩

/-- C7 amended witness: carol, owning nothing, gets 200 with the nil slice. -/
theorem list_empty_ok_null_witness :
    ListEquipment pgRepo dbAlice "carol" = (.ok GoSlice.nilSlice, dbAlice) ∧
    handlerList pgRepo dbAlice "carol" = (⟨200, .listBody GoSlice.nilSlice⟩, dbAlice) ∧
    GoSlice.renderJson GoSlice.nilSlice = "null" :=
  list_empty_ok_null dbAlice "carol" rfl (by decide)

/-- C8: for every stored entity updated by its owner, the service returns the
entity with name and description taken from the request and updated_at
refreshed, while id, owner and created_at are the stored ones; in the store
only the matching row changes and only in those three fields. -/
theorem update_preserves_identity_fields (db : DB) (e : Equipment) (u : String)
    (req : UpdateEquipmentRequest)
    (hfind : findRow db e.id = some e) (hown : e.userID = u) :
    UpdateEquipment pgRepo db e.id u req =
      (.ok (applyUpdate e req db.now),
       { db with rows := db.rows.map (fun r =>
          if r.id = e.id then applyUpdate r req db.now else r) }) ∧
    (applyUpdate e req db.now).id = e.id ∧
    (applyUpdate e req db.now).userID = e.userID ∧
    (applyUpdate e req db.now).createdAt = e.createdAt ∧
    (applyUpdate e req db.now).name = req.name ∧
    (applyUpdate e req db.now).description = req.description ∧
    (applyUpdate e req db.now).updatedAt = db.now := by
  have hfb : pgFindByID db e.id = (.ok e, db) := by
    unfold pgFindByID; rw [hfind]
  have hget : GetEquipment pgRepo db e.id u = (.ok e, db) := by
    simp [GetEquipment, pgRepo, hfb, hown]
  have hany := findRow_some_any_true db e.id e hfind
  refine ⟨?_, rfl, rfl, rfl, rfl, rfl, rfl⟩
  simp only [UpdateEquipment]
  rw [hget]
  simp only [updateAfterCheck, pgRepo, pgUpdate]
  rw [hany]
  simp [applyUpdate]

/-- C8 witness: alice updates eq-1; id, owner and created_at survive, name,
description and updated_at change. -/
theorem update_preserves_identity_fields_witness :
    UpdateEquipment pgRepo dbAlice "eq-1" "alice" reqW =
      (.ok ⟨"eq-1", "Barbell", "Olympic barbell", "alice", 1, 10⟩,
       ⟨[⟨"eq-1", "Barbell", "Olympic barbell", "alice", 1, 10⟩], 5, 10⟩) := by
  have h := update_preserves_identity_fields dbAlice aliceRow "alice" reqW rfl rfl
  exact h.1

/-- C9 counterexample: the entity exists and is owned at check time, is
deleted before the second repository call, and the update tail then fails with
the wrapped pgx no-rows error, which the handler does not recognize as the
not-found sentinel and maps to HTTP 500, not 404. -/
theorem update_race_counterexample :
    GetEquipment pgRepo dbAlice "eq-1" "alice" = (.ok aliceRow, dbAlice) ∧
    pgDelete dbAlice "eq-1" = (.ok (), ⟨[], 5, 10⟩) ∧
    updateAfterCheck pgRepo (⟨[], 5, 10⟩ : DB) aliceRow reqW =
      (.error (.wrapped "failed to update equipment" .pgxNoRows), (⟨[], 5, 10⟩ : DB)) ∧
    errorsIs (.wrapped "failed to update equipment" .pgxNoRows) .errEquipmentNotFound = false ∧
    updateErrorResponse (.wrapped "failed to update equipment" .pgxNoRows) =
      ⟨500, .errorObj "failed to update equipment"⟩ ∧
    (updateErrorResponse (.wrapped "failed to update equipment" .pgxNoRows)).status ≠ 404 :=
  ⟨rfl, rfl, rfl, rfl, rfl, by decide⟩

/-- C9 amended: when the row disappears between the two-phase check and the
UPDATE, the update tail fails with the wrapped no-rows error, this error is
not the not-found sentinel, and the handler mapping answers 500 Internal (a
handled failure, not a crash), not 404. -/
theorem update_race_internal (db : DB) (e : Equipment) (u : String)
    (req : UpdateEquipmentRequest)
    (hfind : findRow db e.id = some e) (hown : e.userID = u) :
    GetEquipment pgRepo db e.id u = (.ok e, db) ∧
    updateAfterCheck pgRepo (pgDelete db e.id).2 e req =
      (.error (.wrapped "failed to update equipment" .pgxNoRows), (pgDelete db e.id).2) ∧
    errorsIs (.wrapped "failed to update equipment" .pgxNoRows) .errEquipmentNotFound = false ∧
    updateErrorResponse (.wrapped "failed to update equipment" .pgxNoRows) =
      ⟨500, .errorObj "failed to update equipment"⟩ := by
  have hfb : pgFindByID db e.id = (.ok e, db) := by
    unfold pgFindByID; rw [hfind]
  have hget : GetEquipment pgRepo db e.id u = (.ok e, db) := by
    simp [GetEquipment, pgRepo, hfb, hown]
  have hnone := findRow_pgDelete db e.id
  have hany := findRow_none_any_false (pgDelete db e.id).2 e.id hnone
  refine ⟨hget, ?_, rfl, rfl⟩
  simp [updateAfterCheck, pgRepo, pgUpdate, hany]

/-- C9 amended witness: the concrete race on eq-1 surfaces as the wrapped
no-rows error and a 500 mapping. -/
theorem update_race_internal_witness :
    GetEquipment pgRepo dbAlice "eq-1" "alice" = (.ok aliceRow, dbAlice) ∧
    updateAfterCheck pgRepo (pgDelete dbAlice "eq-1").2 aliceRow reqW =
      (.error (.wrapped "failed to update equipment" .pgxNoRows), (pgDelete dbAlice "eq-1").2) ∧
    errorsIs (.wrapped "failed to update equipment" .pgxNoRows) .errEquipmentNotFound = false ∧
    updateErrorResponse (.wrapped "failed to update equipment" .pgxNoRows) =
      ⟨500, .errorObj "failed to update equipment"⟩ :=
  update_race_internal dbAlice aliceRow "alice" reqW rfl rfl

/-- Reduction of the middleware on a canonical wire string: the header is
present, the Bearer prefix strips, the decoder yields the abstract token, and
what remains is signature/expiry verification followed by claim processing. -/
theorem authRequired_decode_step (secret : String) (now : Nat) (tok : Token) :
    authRequired secret now (fun s => if s = "tok" then some tok else none) "Bearer tok" =
      (match jwtParse secret now tok with
       | .error _ => .abort 401 "invalid or expired token"
       | .ok token =>
         if !token.claimsAreMap then .abort 401 "invalid token claims"
         else
           match asString (lookupClaim token.claims "sub") with
           | none => .abort 401 "invalid user_id in token"
           | some userID =>
             .proceed userID ((asString (lookupClaim token.claims "email")).getD "")) := rfl

/-- Concrete fixture: a well-formed unexpired token signed with a different
secret than the server secret. -/
def tokWrongSecret : Token := ⟨true, "other-secret", some 1000, true, [("sub", .str "alice")]⟩

/-- Concrete fixture: a token signed with the server secret but expired. -/
def tokExpired : Token := ⟨true, "secret", some 10, true, [("sub", .str "alice")]⟩

/-- Concrete fixture: a valid token whose sub claim is the empty string. -/
def tokEmptySub : Token :=
  ⟨true, "secret", some 1000, true, [("sub", .str ""), ("email", .str "x@y.z")]⟩

/-- Concrete fixture: a valid token with no sub claim. -/
def tokNoSub : Token := ⟨true, "secret", some 1000, true, [("email", .str "x@y.z")]⟩

/-- Concrete fixture: a valid token whose email claim is a number. -/
def tokNumEmail : Token :=
  ⟨true, "secret", some 1000, true, [("sub", .str "alice"), ("email", .num 7)]⟩

/-- Concrete fixture: a valid token with no email claim. -/
def tokNoEmail : Token := ⟨true, "secret", some 1000, true, [("sub", .str "alice")]⟩

/-- Concrete fixture: a decoder serving the two C5 tokens. -/
def decodeTwo : String → Option Token :=
  fun s => if s = "t1" then some tokWrongSecret else if s = "t2" then some tokExpired else none

/-- C5 counterexample: a wrong-secret token and an expired token produce the
same single 401 condition, the combined message, so the two failures are not
distinguishable and neither response carries a specific invalid-signature or
expired condition. -/
theorem auth_error_collapse_counterexample :
    jwtParse "secret" 100 tokWrongSecret = .error .badSignature ∧
    jwtParse "secret" 100 tokExpired = .error .tokenExpired ∧
    authRequired "secret" 100 decodeTwo "Bearer t1" =
      .abort 401 "invalid or expired token" ∧
    authRequired "secret" 100 decodeTwo "Bearer t2" =
      .abort 401 "invalid or expired token" ∧
    authRequired "secret" 100 decodeTwo "Bearer t1" =
      authRequired "secret" 100 decodeTwo "Bearer t2" :=
  ⟨rfl, rfl, rfl, rfl, rfl⟩

/-- C5 amended: every token failing signature verification and every expired
token is answered 401 with the one combined condition, the message invalid or
expired token; the middleware does not distinguish the two failures. -/
theorem auth_signature_and_expiry_collapsed (secret : String) (now : Nat) (tok : Token)
    (h : jwtParse secret now tok = .error .badSignature ∨
         jwtParse secret now tok = .error .tokenExpired) :
    authRequired secret now (fun s => if s = "tok" then some tok else none) "Bearer tok" =
      .abort 401 "invalid or expired token" := by
  rw [authRequired_decode_step]
  rcases h with hb | hb <;> rw [hb]

/-- C5 amended witness: the wrong-secret fixture is answered with the combined
condition. -/
theorem auth_signature_and_expiry_collapsed_witness :
    authRequired "secret" 100 (fun s => if s = "tok" then some tokWrongSecret else none)
      "Bearer tok" = .abort 401 "invalid or expired token" :=
  auth_signature_and_expiry_collapsed "secret" 100 tokWrongSecret (Or.inl rfl)

/-- C6 counterexample: a verified token whose sub claim is the empty string is
not rejected by the middleware; it proceeds with user_id set to the empty
string. -/
theorem empty_subject_passes_counterexample :
    jwtParse "secret" 100 tokEmptySub = .ok tokEmptySub ∧
    asString (lookupClaim tokEmptySub.claims "sub") = some "" ∧
    authRequired "secret" 100 (fun s => if s = "tok" then some tokEmptySub else none)
      "Bearer tok" = .proceed "" "x@y.z" :=
  ⟨rfl, rfl, rfl⟩

/-- C6 amended: for every token passing signature, expiry and claim-map
checks, the middleware aborts 401 with the invalid-claims condition exactly
when the sub claim is absent or not a string; any string sub, the empty string
included, proceeds with that string as user_id. -/
theorem subject_claim_check (secret : String) (now : Nat) (tok : Token)
    (hparse : jwtParse secret now tok = .ok tok) (hmap : tok.claimsAreMap = true) :
    (asString (lookupClaim tok.claims "sub") = none →
      authRequired secret now (fun s => if s = "tok" then some tok else none) "Bearer tok" =
        .abort 401 "invalid user_id in token") ∧
    (∀ sub : String, asString (lookupClaim tok.claims "sub") = some sub →
      authRequired secret now (fun s => if s = "tok" then some tok else none) "Bearer tok" =
        .proceed sub ((asString (lookupClaim tok.claims "email")).getD "")) := by
  constructor
  · intro hs
    rw [authRequired_decode_step, hparse]
    simp [hmap, hs]
  · intro sub hs
    rw [authRequired_decode_step, hparse]
    simp [hmap, hs]

/-- C6 amended witness: a token without sub is rejected with the
invalid-claims condition; the empty-string sub fixture proceeds. -/
theorem subject_claim_check_witness :
    authRequired "secret" 100 (fun s => if s = "tok" then some tokNoSub else none)
      "Bearer tok" = .abort 401 "invalid user_id in token" ∧
    authRequired "secret" 100 (fun s => if s = "tok" then some tokEmptySub else none)
      "Bearer tok" = .proceed "" "x@y.z" := by
  constructor
  · exact (subject_claim_check "secret" 100 tokNoSub rfl rfl).1 rfl
  · exact (subject_claim_check "secret" 100 tokEmptySub rfl rfl).2 "" rfl

/-- C10: for every token whose other checks pass, the email claim can never
cause a failure: the middleware proceeds whatever the email claim is, and a
missing or non-string email claim is stored as the empty string. -/
theorem email_claim_never_fails (secret : String) (now : Nat) (tok : Token) (sub : String)
    (hparse : jwtParse secret now tok = .ok tok) (hmap : tok.claimsAreMap = true)
    (hsub : asString (lookupClaim tok.claims "sub") = some sub) :
    authRequired secret now (fun s => if s = "tok" then some tok else none) "Bearer tok" =
      .proceed sub ((asString (lookupClaim tok.claims "email")).getD "") ∧
    (lookupClaim tok.claims "email" = none →
      authRequired secret now (fun s => if s = "tok" then some tok else none) "Bearer tok" =
        .proceed sub "") ∧
    (∀ v : ClaimValue, lookupClaim tok.claims "email" = some v →
      (∀ str : String, v ≠ .str str) →
      authRequired secret now (fun s => if s = "tok" then some tok else none) "Bearer tok" =
        .proceed sub "") := by
  have hmain : authRequired secret now (fun s => if s = "tok" then some tok else none)
      "Bearer tok" = .proceed sub ((asString (lookupClaim tok.claims "email")).getD "") := by
    rw [authRequired_decode_step, hparse]
    simp [hmap, hsub]
  refine ⟨hmain, ?_, ?_⟩
  · intro he
    rw [hmain]
    simp [he, asString]
  · intro v hv hns
    rw [hmain]
    cases v with
    | str s => exact absurd rfl (hns s)
    | num n => simp [hv, asString]
    | flag b => simp [hv, asString]
    | nullv => simp [hv, asString]

/-- C10 witness: a numeric email claim and an absent email claim both proceed
with the email context value set to the empty string. -/
theorem email_claim_never_fails_witness :
    authRequired "secret" 100 (fun s => if s = "tok" then some tokNumEmail else none)
      "Bearer tok" = .proceed "alice" "" ∧
    authRequired "secret" 100 (fun s => if s = "tok" then some tokNoEmail else none)
      "Bearer tok" = .proceed "alice" "" := by
  constructor
  · exact (email_claim_never_fails "secret" 100 tokNumEmail "alice" rfl rfl rfl).2.2
      (.num 7) rfl (fun str h => ClaimValue.noConfusion h)
  · exact (email_claim_never_fails "secret" 100 tokNoEmail "alice" rfl rfl rfl).2.1 rfl
